import Mathlib

/-!
Shallow embedding of the VitaNips backend views (`users/views.py`,
`vitanips/core/admin_views.py`) and proofs about them.

Dates are proleptic-Gregorian ordinals as in Python `datetime.date`
(ordinal 1 = 0001-01-01); database tables are lists of rows; each view
is a pure function from the request data and the database state to a
status code, a response body and the successor database state.
-/

namespace VitaNips

/-! ### Gregorian date arithmetic (Python `datetime.date`) -/

def isLeap (y : Nat) : Bool :=
  y % 4 == 0 && (y % 100 != 0 || y % 400 == 0)

def daysInMonth (y m : Nat) : Nat :=
  if m == 2 then (if isLeap y then 29 else 28)
  else if m == 4 || m == 6 || m == 9 || m == 11 then 30
  else 31

structure Date where
  year : Nat
  month : Nat
  day : Nat
  deriving Repr, DecidableEq

def daysBeforeYear (y : Nat) : Nat :=
  365 * (y - 1) + (y - 1) / 4 - (y - 1) / 100 + (y - 1) / 400

def daysBeforeMonth (y m : Nat) : Nat :=
  ((List.range (m - 1)).map (fun k => daysInMonth y (k + 1))).sum

/-- `date.toordinal()`. -/
def Date.toOrdinal (d : Date) : Nat :=
  daysBeforeYear d.year + daysBeforeMonth d.year d.month + d.day

/-- Walk the months of year `y` to locate the month holding day-of-year
    remainder `rem` (0-based); returns the month and the 1-based day. -/
def findMonth (y : Nat) : Nat → Nat → Nat → Nat × Nat
  | 0, m, rem => (m, rem + 1)
  | fuel + 1, m, rem =>
      if rem < daysInMonth y m then (m, rem + 1)
      else findMonth y fuel (m + 1) (rem - daysInMonth y m)

/-- `date.fromordinal(n)`: inverse of `toOrdinal`, by 400/100/4/1-year
    cycle decomposition. -/
def ofOrdinal (n : Nat) : Date :=
  let n0 := n - 1
  let n400 := n0 / 146097
  let r400 := n0 % 146097
  let n100 := r400 / 36524
  let r100 := r400 % 36524
  let n4 := r100 / 1461
  let r4 := r100 % 1461
  let n1 := r4 / 365
  let r1 := r4 % 365
  let year := 400 * n400 + 100 * n100 + 4 * n4 + n1 + 1
  if n1 == 4 || n100 == 4 then ⟨year - 1, 12, 31⟩
  else
    let md := findMonth year 11 1 r1
    ⟨year, md.1, md.2⟩

/-- `d.replace(day=1)` expressed on ordinals: ordinal of the first day of
    the month containing ordinal `n`. -/
def firstOfMonth (n : Nat) : Nat :=
  let d := ofOrdinal n
  Date.toOrdinal ⟨d.year, d.month, 1⟩

def monthAbbrev (m : Nat) : String :=
  match m with
  | 1 => "Jan" | 2 => "Feb" | 3 => "Mar" | 4 => "Apr"
  | 5 => "May" | 6 => "Jun" | 7 => "Jul" | 8 => "Aug"
  | 9 => "Sep" | 10 => "Oct" | 11 => "Nov" | 12 => "Dec"
  | _ => ""

/-- `%Y`: decimal year, zero-padded to at least four digits. -/
def pad4 (y : Nat) : String :=
  let s := toString y
  if s.length ≥ 4 then s
  else String.mk (List.replicate (4 - s.length) '0') ++ s

/-- `month_start.strftime("%b %Y")` for an ordinal. -/
def monthLabel (n : Nat) : String :=
  let d := ofOrdinal n
  monthAbbrev d.month ++ " " ++ pad4 d.year

/-! ### Database rows

The `User` model lives outside this excerpt; its fields are taken from
the serializable fields the views touch. -/

structure UserRow where
  id : Nat
  email : String
  username : String
  first_name : String
  last_name : String
  is_active : Bool
  is_staff : Bool
  is_superuser : Bool
  is_pharmacy_staff : Bool
  created_at : Nat
  deriving Repr, DecidableEq

/-- Modelled from the spec: the `Doctor` model (`doctors/models.py`) is not
    in the excerpt; per §3 it is owned by a user one-to-one and has an
    `is_verified` boolean. -/
structure DoctorRow where
  id : Nat
  user : Nat
  is_verified : Bool
  deriving Repr, DecidableEq

/-- Modelled from the spec: the `Pharmacy` model (`pharmacy/models.py`) is
    not in the excerpt; per §3 it is an independent entity with an
    `is_active` boolean (plus serializable identity fields). -/
structure PharmacyRow where
  id : Nat
  name : String
  is_active : Bool
  deriving Repr, DecidableEq

/-- Modelled from the spec: the `Appointment` model is not in the excerpt;
    per §3/§4.2 it is read-only here, counted by `date` and grouped by
    `status`. -/
structure AppointmentRow where
  id : Nat
  date : Nat
  status : String
  deriving Repr, DecidableEq

/-- Modelled from the spec: the `MedicationOrder` model is not in the
    excerpt; per §3/§4.2 it is read-only here, counted by `status`. -/
structure OrderRow where
  id : Nat
  status : String
  deriving Repr, DecidableEq

structure AdminDB where
  users : List UserRow
  doctors : List DoctorRow
  pharmacies : List PharmacyRow
  appointments : List AppointmentRow
  orders : List OrderRow
  deriving Repr, DecidableEq

/-- Modelled from the spec: the `MedicalHistory` model (`users/models.py`)
    is not in the excerpt; per §3 each record is owned by exactly one user
    via its `user` foreign key, with its own data fields. -/
structure MedicalHistoryRow where
  id : Nat
  user : Nat
  condition : String
  deriving Repr, DecidableEq

/-- Modelled from the spec: the `Vaccination` model (`users/models.py`)
    is not in the excerpt; per §3 each record is owned by exactly one user
    via its `user` foreign key, with its own data fields. -/
structure VaccinationRow where
  id : Nat
  user : Nat
  vaccine_name : String
  deriving Repr, DecidableEq

/-! ### `users/views.py` — owner-scoped medical history and vaccinations

`MedicalHistoryDetailView` / `VaccinationDetailView` are
`RetrieveUpdateDestroyAPIView`s whose `get_queryset` filters by
`user=self.request.user`; the object is then looked up by `id` inside
that queryset, and a miss is a 404. -/

def medicalHistoryQueryset (db : List MedicalHistoryRow) (requester : Nat) :
    List MedicalHistoryRow :=
  db.filter (fun r => r.user == requester)

def medicalHistoryGetObject (db : List MedicalHistoryRow) (requester rid : Nat) :
    Option MedicalHistoryRow :=
  (medicalHistoryQueryset db requester).find? (fun r => r.id == rid)

/-- GET detail: status and body. -/
def medicalHistoryRetrieve (db : List MedicalHistoryRow) (requester rid : Nat) :
    Nat × Option MedicalHistoryRow :=
  match medicalHistoryGetObject db requester rid with
  | some r => (200, some r)
  | none => (404, none)

/-- PUT/PATCH detail: status and successor database state. -/
def medicalHistoryUpdate (db : List MedicalHistoryRow) (requester rid : Nat)
    (condition : String) : Nat × List MedicalHistoryRow :=
  match medicalHistoryGetObject db requester rid with
  | some r => (200, db.map (fun x => if x.id == r.id then { r with condition := condition } else x))
  | none => (404, db)

/-- DELETE detail: status and successor database state. -/
def medicalHistoryDestroy (db : List MedicalHistoryRow) (requester rid : Nat) :
    Nat × List MedicalHistoryRow :=
  match medicalHistoryGetObject db requester rid with
  | some r => (204, db.filter (fun x => !(x.id == r.id)))
  | none => (404, db)

def vaccinationQueryset (db : List VaccinationRow) (requester : Nat) :
    List VaccinationRow :=
  db.filter (fun r => r.user == requester)

def vaccinationGetObject (db : List VaccinationRow) (requester rid : Nat) :
    Option VaccinationRow :=
  (vaccinationQueryset db requester).find? (fun r => r.id == rid)

def vaccinationRetrieve (db : List VaccinationRow) (requester rid : Nat) :
    Nat × Option VaccinationRow :=
  match vaccinationGetObject db requester rid with
  | some r => (200, some r)
  | none => (404, none)

def vaccinationUpdate (db : List VaccinationRow) (requester rid : Nat)
    (vaccine_name : String) : Nat × List VaccinationRow :=
  match vaccinationGetObject db requester rid with
  | some r => (200, db.map (fun x => if x.id == r.id then { r with vaccine_name := vaccine_name } else x))
  | none => (404, db)

def vaccinationDestroy (db : List VaccinationRow) (requester rid : Nat) :
    Nat × List VaccinationRow :=
  match vaccinationGetObject db requester rid with
  | some r => (204, db.filter (fun x => !(x.id == r.id)))
  | none => (404, db)

/-- Creation payloads may carry an ownership value; `perform_create`
    passes `user=self.request.user` to `serializer.save`, which overrides
    any payload value. -/
structure MedicalHistoryPayload where
  user : Option Nat
  condition : String
  deriving Repr, DecidableEq

structure VaccinationPayload where
  user : Option Nat
  vaccine_name : String
  deriving Repr, DecidableEq

/-- `MedicalHistoryListCreateView.perform_create`:
    `serializer.save(user=self.request.user)`. -/
def medicalHistoryCreate (db : List MedicalHistoryRow) (requester : Nat)
    (p : MedicalHistoryPayload) (newId : Nat) : List MedicalHistoryRow :=
  db ++ [{ id := newId, user := requester, condition := p.condition }]

/-- `VaccinationListCreateView.perform_create`:
    `serializer.save(user=self.request.user)`. -/
def vaccinationCreate (db : List VaccinationRow) (requester : Nat)
    (p : VaccinationPayload) (newId : Nat) : List VaccinationRow :=
  db ++ [{ id := newId, user := requester, vaccine_name := p.vaccine_name }]

/-! ### `AdminAnalyticsView.get` — user-growth series -/

structure GrowthPoint where
  month : String
  count : Nat
  deriving Repr, DecidableEq

/-- `User.objects.filter(created_at__gte=lo, created_at__lt=hi).count()`. -/
def monthUserCount (users : List UserRow) (lo hi : Nat) : Nat :=
  (users.filter (fun u => lo ≤ u.created_at && u.created_at < hi)).length

/-- One iteration of the user-growth loop body for index `i`. -/
def growthBucket (today : Nat) (users : List UserRow) (i : Nat) : GrowthPoint :=
  let month_start := firstOfMonth (today - 30 * i)
  let month_end := firstOfMonth (month_start + 32)
  { month := monthLabel month_start
    count := monthUserCount users month_start month_end }

/-- The user-growth series of `AdminAnalyticsView.get`: the loop
    `for i in range(12, 0, -1)` appending one bucket per `i`. -/
def userGrowth (today : Nat) (users : List UserRow) : List GrowthPoint :=
  ((List.range 12).map (fun j => 12 - j)).map (growthBucket today users)

/-! ### `AdminUserDetailView.patch`, `AdminDoctorVerificationView.patch`,
`AdminPharmacyDetailView.patch`

Request bodies are association lists from field name to boolean value
(all three endpoints patch boolean flags); a key absent from the list is
absent from `request.data`. -/

def allowed_fields : List String :=
  ["is_active", "is_staff", "is_superuser", "is_pharmacy_staff"]

/-- `setattr(user, field, value)` for the fields the patch loop touches. -/
def setUserField (u : UserRow) (f : String) (v : Bool) : UserRow :=
  if f = "is_active" then { u with is_active := v }
  else if f = "is_staff" then { u with is_staff := v }
  else if f = "is_superuser" then { u with is_superuser := v }
  else if f = "is_pharmacy_staff" then { u with is_pharmacy_staff := v }
  else u

/-- The `for field in allowed_fields: if field in request.data: setattr`
    loop of `AdminUserDetailView.patch`. -/
def applyUserPatch (data : List (String × Bool)) (u : UserRow) : UserRow :=
  allowed_fields.foldl
    (fun acc f =>
      match data.lookup f with
      | some v => setUserField acc f v
      | none => acc) u

/-- `AdminUserDetailView.patch`: status and successor user table. -/
def adminPatchUser (db : List UserRow) (uid : Nat)
    (data : List (String × Bool)) : Nat × List UserRow :=
  match db.find? (fun x => x.id == uid) with
  | some u => (200, db.map (fun x => if x.id == u.id then applyUserPatch data u else x))
  | none => (404, db)

/-- `AdminDoctorVerificationView.patch`: `request.data.get("is_verified")`
    absent is a 400; present overwrites `is_verified` and saves. -/
def adminVerifyDoctor (db : List DoctorRow) (did : Nat)
    (data : List (String × Bool)) : Nat × List DoctorRow :=
  match db.find? (fun x => x.id == did) with
  | some d =>
      match data.lookup "is_verified" with
      | some v => (200, db.map (fun x => if x.id == d.id then { d with is_verified := v } else x))
      | none => (400, db)
  | none => (404, db)

/-- `AdminPharmacyDetailView.patch`: `"is_active" in request.data` absent
    is a 200 no-op; present overwrites `is_active` and saves. -/
def adminPatchPharmacy (db : List PharmacyRow) (pid : Nat)
    (data : List (String × Bool)) : Nat × List PharmacyRow :=
  match db.find? (fun x => x.id == pid) with
  | some p =>
      match data.lookup "is_active" with
      | some v => (200, db.map (fun x => if x.id == p.id then { p with is_active := v } else x))
      | none => (200, db)
  | none => (404, db)

/-! ### `AdminUsersListView.get` — filtered user listing -/

/-- Descending insertion for `order_by("-created_at")`. -/
def insertByCreated (u : UserRow) : List UserRow → List UserRow
  | [] => [u]
  | v :: vs =>
      if v.created_at ≤ u.created_at then u :: v :: vs
      else v :: insertByCreated u vs

def orderByCreatedDesc (l : List UserRow) : List UserRow :=
  l.foldr insertByCreated []

/-- `doctor_profile__isnull=False`: the user has a linked `Doctor` row. -/
def hasDoctorProfile (doctors : List DoctorRow) (uid : Nat) : Bool :=
  doctors.any (fun d => d.user == uid)

/-- `__icontains`: case-insensitive substring test. -/
def icontains (hay needle : String) : Bool :=
  needle.toLower.length == 0 ||
    (hay.toLower.splitOn needle.toLower).length ≥ 2

/-- `AdminUsersListView.get`: the filtered, ordered user list. -/
def listUsers (db : AdminDB) (role is_active search : Option String) :
    List UserRow :=
  let base := orderByCreatedDesc db.users
  let afterRole :=
    match role with
    | some "admin" => base.filter (fun u => u.is_staff || u.is_superuser)
    | some "doctor" => base.filter (fun u => hasDoctorProfile db.doctors u.id)
    | some "pharmacy" => base.filter (fun u => u.is_pharmacy_staff)
    | some "patient" =>
        base.filter (fun u =>
          !u.is_staff && !u.is_pharmacy_staff &&
            !hasDoctorProfile db.doctors u.id)
    | _ => base
  let afterActive :=
    match is_active with
    | some s => afterRole.filter (fun u => u.is_active == (s.toLower == "true"))
    | none => afterRole
  match search with
  | some s =>
      if s.length == 0 then afterActive
      else afterActive.filter (fun u =>
        icontains u.email s || icontains u.username s ||
        icontains u.first_name s || icontains u.last_name s)
  | none => afterActive

/-- The `{count, results}` response body. -/
def listUsersResponse (db : AdminDB) (role is_active search : Option String) :
    Nat × List UserRow :=
  let r := listUsers db role is_active search
  (r.length, r)

/-! ### `AdminStatsView.get` -/

structure UserStats where
  total : Nat
  active : Nat
  new_this_month : Nat
  inactive : Nat
  deriving Repr, DecidableEq

structure DoctorStats where
  total : Nat
  verified : Nat
  pending_verification : Nat
  deriving Repr, DecidableEq

structure PharmacyStats where
  total : Nat
  active : Nat
  inactive : Nat
  deriving Repr, DecidableEq

structure AppointmentStats where
  total : Nat
  this_month : Nat
  today : Nat
  deriving Repr, DecidableEq

structure OrderStats where
  total : Nat
  pending : Nat
  deriving Repr, DecidableEq

structure Stats where
  users : UserStats
  doctors : DoctorStats
  pharmacies : PharmacyStats
  appointments : AppointmentStats
  orders : OrderStats
  deriving Repr, DecidableEq

/-- `AdminStatsView.get`: dashboard counts as of date-ordinal `today`. -/
def getStats (today : Nat) (db : AdminDB) : Stats :=
  let this_month_start := firstOfMonth today
  let total_users := db.users.length
  let active_users := (db.users.filter (fun u => u.is_active)).length
  let new_users_this_month :=
    (db.users.filter (fun u => this_month_start ≤ u.created_at)).length
  let total_doctors := db.doctors.length
  let verified_doctors := (db.doctors.filter (fun d => d.is_verified)).length
  let pending_verification :=
    (db.doctors.filter (fun d => d.is_verified == false)).length
  let total_pharmacies := db.pharmacies.length
  let active_pharmacies :=
    (db.pharmacies.filter (fun p => p.is_active)).length
  let total_appointments := db.appointments.length
  let appointments_this_month :=
    (db.appointments.filter (fun a => this_month_start ≤ a.date)).length
  let appointments_today :=
    (db.appointments.filter (fun a => a.date == today)).length
  let total_orders := db.orders.length
  let pending_orders :=
    (db.orders.filter (fun o => o.status == "pending")).length
  { users :=
      { total := total_users, active := active_users,
        new_this_month := new_users_this_month,
        inactive := total_users - active_users }
    doctors :=
      { total := total_doctors, verified := verified_doctors,
        pending_verification := pending_verification }
    pharmacies :=
      { total := total_pharmacies, active := active_pharmacies,
        inactive := total_pharmacies - active_pharmacies }
    appointments :=
      { total := total_appointments, this_month := appointments_this_month,
        today := appointments_today }
    orders := { total := total_orders, pending := pending_orders } }

/-! ### Theorems -/

/-- C1: `get_analytics` computes its 12-point user-growth series exactly by
the algorithm: for `i` from 12 down to 1, `month_start` = first of the
month containing `today - 30*i` days, `month_end` = first of the month
containing `month_start + 32` days; the bucket at position `12 - i` counts
users with `created_at` in `[month_start, month_end)` and is labeled with
the month and year of `month_start`. -/
theorem user_growth_buckets (today : Nat) (users : List UserRow) (i : Nat)
    (_h0 : 360 < today) (h1 : 1 ≤ i) (h2 : i ≤ 12) :
    (userGrowth today users).length = 12 ∧
    (userGrowth today users)[12 - i]? =
      some { month := monthLabel (firstOfMonth (today - 30 * i))
             count := monthUserCount users (firstOfMonth (today - 30 * i))
                       (firstOfMonth (firstOfMonth (today - 30 * i) + 32)) } := by
  constructor
  · simp [userGrowth]
  · have hlt : 12 - i < 12 := by omega
    simp only [userGrowth, List.getElem?_map, List.getElem?_range, hlt, if_pos,
      Option.map_some, Option.map_some']
    have h12 : 12 - (12 - i) = i := by omega
    rw [h12]
    rfl

/-- Witness for C1 at a concrete date (2025-10-12) and user set, `i = 3`. -/
theorem user_growth_buckets_witness :
    (userGrowth 739536
        [{ id := 1, email := "a@x.io", username := "a", first_name := "A",
           last_name := "A", is_active := true, is_staff := false,
           is_superuser := false, is_pharmacy_staff := false,
           created_at := 739450 }]).length = 12 ∧
    (userGrowth 739536
        [{ id := 1, email := "a@x.io", username := "a", first_name := "A",
           last_name := "A", is_active := true, is_staff := false,
           is_superuser := false, is_pharmacy_staff := false,
           created_at := 739450 }])[12 - 3]? =
      some { month := monthLabel (firstOfMonth (739536 - 30 * 3))
             count := monthUserCount
                       [{ id := 1, email := "a@x.io", username := "a",
                          first_name := "A", last_name := "A",
                          is_active := true, is_staff := false,
                          is_superuser := false, is_pharmacy_staff := false,
                          created_at := 739450 }]
                       (firstOfMonth (739536 - 30 * 3))
                       (firstOfMonth (firstOfMonth (739536 - 30 * 3) + 32)) } :=
  user_growth_buckets 739536 _ 3 (by decide) (by decide) (by decide)

/-- A `find?` by id inside a queryset filtered to requester `A` misses
    whenever every row carrying the id belongs to some other user `B`. -/
lemma find_scoped_none {α : Type} (idf userf : α → Nat) (db : List α)
    (A B rid : Nat) (hAB : A ≠ B)
    (hown : ∀ r ∈ db, idf r = rid → userf r = B) :
    (db.filter (fun r => userf r == A)).find? (fun r => idf r == rid) = none := by
  rw [List.find?_eq_none]
  intro x hx hpx
  rcases List.mem_filter.mp hx with ⟨hmem, huser⟩
  have hA : userf x = A := by simpa using huser
  have hid : idf x = rid := by simpa using hpx
  exact hAB (hA ▸ hown x hmem hid)

/-- C2: for distinct users `A ≠ B`, when every medical-history or
vaccination row carrying id `rid` belongs to `B`, the detail
retrieve/update/destroy operations invoked by `A` on `rid` all return 404
with the database unchanged — exactly the behavior when no row with `rid`
exists (never 403, never touching `B`'s record). -/
theorem owner_scope_cross_user_404 (dbm : List MedicalHistoryRow)
    (dbv : List VaccinationRow) (A B rid : Nat) (c vn : String)
    (hAB : A ≠ B)
    (hm : ∀ r ∈ dbm, r.id = rid → r.user = B)
    (hv : ∀ r ∈ dbv, r.id = rid → r.user = B) :
    medicalHistoryRetrieve dbm A rid = (404, none) ∧
    medicalHistoryUpdate dbm A rid c = (404, dbm) ∧
    medicalHistoryDestroy dbm A rid = (404, dbm) ∧
    vaccinationRetrieve dbv A rid = (404, none) ∧
    vaccinationUpdate dbv A rid vn = (404, dbv) ∧
    vaccinationDestroy dbv A rid = (404, dbv) := by
  have hmn : medicalHistoryGetObject dbm A rid = none := by
    unfold medicalHistoryGetObject medicalHistoryQueryset
    exact find_scoped_none (fun r => r.id) (fun r => r.user) dbm A B rid hAB hm
  have hvn : vaccinationGetObject dbv A rid = none := by
    unfold vaccinationGetObject vaccinationQueryset
    exact find_scoped_none (fun r => r.id) (fun r => r.user) dbv A B rid hAB hv
  refine ⟨?_, ?_, ?_, ?_, ?_, ?_⟩ <;>
    simp [medicalHistoryRetrieve, medicalHistoryUpdate, medicalHistoryDestroy,
      vaccinationRetrieve, vaccinationUpdate, vaccinationDestroy, hmn, hvn]

/-- Witness for C2: user 1 probing user 2's record id 7. -/
theorem owner_scope_cross_user_404_witness :
    medicalHistoryRetrieve [{ id := 7, user := 2, condition := "flu" }] 1 7
      = (404, none) ∧
    medicalHistoryUpdate [{ id := 7, user := 2, condition := "flu" }] 1 7 "x"
      = (404, [{ id := 7, user := 2, condition := "flu" }]) ∧
    medicalHistoryDestroy [{ id := 7, user := 2, condition := "flu" }] 1 7
      = (404, [{ id := 7, user := 2, condition := "flu" }]) ∧
    vaccinationRetrieve [{ id := 7, user := 2, vaccine_name := "mmr" }] 1 7
      = (404, none) ∧
    vaccinationUpdate [{ id := 7, user := 2, vaccine_name := "mmr" }] 1 7 "y"
      = (404, [{ id := 7, user := 2, vaccine_name := "mmr" }]) ∧
    vaccinationDestroy [{ id := 7, user := 2, vaccine_name := "mmr" }] 1 7
      = (404, [{ id := 7, user := 2, vaccine_name := "mmr" }]) :=
  owner_scope_cross_user_404 _ _ 1 2 7 "x" "y" (by decide)
    (by intro r hr hid; simp at hr; simp [hr])
    (by intro r hr hid; simp at hr; simp [hr])

/-- C3: `perform_create` for medical history and vaccinations stores the
new record with owner equal to the requester, whatever ownership value the
payload carries: every row of the successor state either pre-existed or is
owned by the requester, and the appended row's owner is the requester. -/
theorem create_forces_requester_ownership (dbm : List MedicalHistoryRow)
    (dbv : List VaccinationRow) (requester : Nat)
    (pm : MedicalHistoryPayload) (pv : VaccinationPayload) (nm nv : Nat) :
    (∀ r ∈ medicalHistoryCreate dbm requester pm nm, r ∈ dbm ∨ r.user = requester) ∧
    ((medicalHistoryCreate dbm requester pm nm).getLast?.map (fun r => r.user)
      = some requester) ∧
    (∀ r ∈ vaccinationCreate dbv requester pv nv, r ∈ dbv ∨ r.user = requester) ∧
    ((vaccinationCreate dbv requester pv nv).getLast?.map (fun r => r.user)
      = some requester) := by
  refine ⟨?_, ?_, ?_, ?_⟩
  · intro r hr
    rcases List.mem_append.mp hr with h | h
    · exact Or.inl h
    · right; simp at h; simp [h]
  · simp [medicalHistoryCreate]
  · intro r hr
    rcases List.mem_append.mp hr with h | h
    · exact Or.inl h
    · right; simp at h; simp [h]
  · simp [vaccinationCreate]

/-- Closed form of the allow-list patch loop: the four flags take the
    payload value when present, everything else is untouched. -/
lemma applyUserPatch_spec (data : List (String × Bool)) (u : UserRow) :
    applyUserPatch data u =
      { u with
        is_active := (data.lookup "is_active").getD u.is_active
        is_staff := (data.lookup "is_staff").getD u.is_staff
        is_superuser := (data.lookup "is_superuser").getD u.is_superuser
        is_pharmacy_staff := (data.lookup "is_pharmacy_staff").getD u.is_pharmacy_staff } := by
  rcases h1 : data.lookup "is_active" with _ | a <;>
  rcases h2 : data.lookup "is_staff" with _ | b <;>
  rcases h3 : data.lookup "is_superuser" with _ | c <;>
  rcases h4 : data.lookup "is_pharmacy_staff" with _ | d <;>
    simp [applyUserPatch, allowed_fields, setUserField, h1, h2, h3, h4]

/-- C4: on an existing user id, `patch_user` succeeds with 200, rewrites
only that user's row, leaves every field outside the four-flag allow-list
unchanged, writes each of the four flags exactly when the key is present
in the payload (with the supplied value), and an extra payload key outside
the allow-list changes nothing and raises no error. -/
theorem patch_user_allowlist (db : List UserRow) (uid : Nat)
    (data : List (String × Bool)) (u : UserRow)
    (h : db.find? (fun x => x.id == uid) = some u) :
    (adminPatchUser db uid data).1 = 200 ∧
    (adminPatchUser db uid data).2
      = db.map (fun x => if x.id == u.id then applyUserPatch data u else x) ∧
    (applyUserPatch data u).id = u.id ∧
    (applyUserPatch data u).email = u.email ∧
    (applyUserPatch data u).username = u.username ∧
    (applyUserPatch data u).first_name = u.first_name ∧
    (applyUserPatch data u).last_name = u.last_name ∧
    (applyUserPatch data u).created_at = u.created_at ∧
    (applyUserPatch data u).is_active = (data.lookup "is_active").getD u.is_active ∧
    (applyUserPatch data u).is_staff = (data.lookup "is_staff").getD u.is_staff ∧
    (applyUserPatch data u).is_superuser
      = (data.lookup "is_superuser").getD u.is_superuser ∧
    (applyUserPatch data u).is_pharmacy_staff
      = (data.lookup "is_pharmacy_staff").getD u.is_pharmacy_staff ∧
    (∀ k v, k ∉ allowed_fields →
      adminPatchUser db uid ((k, v) :: data) = adminPatchUser db uid data) := by
  refine ⟨?_, ?_, ?_, ?_, ?_, ?_, ?_, ?_, ?_, ?_, ?_, ?_, ?_⟩
  · simp [adminPatchUser, h]
  · simp [adminPatchUser, h]
  · rw [applyUserPatch_spec]
  · rw [applyUserPatch_spec]
  · rw [applyUserPatch_spec]
  · rw [applyUserPatch_spec]
  · rw [applyUserPatch_spec]
  · rw [applyUserPatch_spec]
  · rw [applyUserPatch_spec]
  · rw [applyUserPatch_spec]
  · rw [applyUserPatch_spec]
  · rw [applyUserPatch_spec]
  · intro k v hk
    simp only [allowed_fields, List.mem_cons, List.not_mem_nil, or_false,
      not_or] at hk
    obtain ⟨k1, k2, k3, k4⟩ := hk
    have e1 : (k == "is_active") = false := beq_eq_false_iff_ne.mpr k1
    have e2 : (k == "is_staff") = false := beq_eq_false_iff_ne.mpr k2
    have e3 : (k == "is_superuser") = false := beq_eq_false_iff_ne.mpr k3
    have e4 : (k == "is_pharmacy_staff") = false := beq_eq_false_iff_ne.mpr k4
    have f1 : ("is_active" == k) = false := beq_eq_false_iff_ne.mpr (Ne.symm k1)
    have f2 : ("is_staff" == k) = false := beq_eq_false_iff_ne.mpr (Ne.symm k2)
    have f3 : ("is_superuser" == k) = false := beq_eq_false_iff_ne.mpr (Ne.symm k3)
    have f4 : ("is_pharmacy_staff" == k) = false :=
      beq_eq_false_iff_ne.mpr (Ne.symm k4)
    simp [adminPatchUser, h, applyUserPatch_spec, List.lookup, e1, e2, e3, e4,
      f1, f2, f3, f4]

/-- Witness for C4: one-user table, payload setting `is_active := false`
    alongside an unexpected key. -/
theorem patch_user_allowlist_witness :
    (adminPatchUser
      [{ id := 5, email := "e", username := "n", first_name := "F",
         last_name := "L", is_active := true, is_staff := false,
         is_superuser := false, is_pharmacy_staff := false,
         created_at := 100 }] 5 [("is_active", false)]).1 = 200 ∧
    (adminPatchUser
      [{ id := 5, email := "e", username := "n", first_name := "F",
         last_name := "L", is_active := true, is_staff := false,
         is_superuser := false, is_pharmacy_staff := false,
         created_at := 100 }] 5 [("is_active", false)]).2
      = [{ id := 5, email := "e", username := "n", first_name := "F",
           last_name := "L", is_active := true, is_staff := false,
           is_superuser := false, is_pharmacy_staff := false,
           created_at := 100 }].map
          (fun x => if x.id == (5 : Nat) then
            applyUserPatch [("is_active", false)]
              { id := 5, email := "e", username := "n", first_name := "F",
                last_name := "L", is_active := true, is_staff := false,
                is_superuser := false, is_pharmacy_staff := false,
                created_at := 100 } else x) ∧
    (applyUserPatch [("is_active", false)]
      { id := 5, email := "e", username := "n", first_name := "F",
        last_name := "L", is_active := true, is_staff := false,
        is_superuser := false, is_pharmacy_staff := false,
        created_at := 100 }).id = 5 ∧
    (applyUserPatch [("is_active", false)]
      { id := 5, email := "e", username := "n", first_name := "F",
        last_name := "L", is_active := true, is_staff := false,
        is_superuser := false, is_pharmacy_staff := false,
        created_at := 100 }).email = "e" ∧
    (applyUserPatch [("is_active", false)]
      { id := 5, email := "e", username := "n", first_name := "F",
        last_name := "L", is_active := true, is_staff := false,
        is_superuser := false, is_pharmacy_staff := false,
        created_at := 100 }).username = "n" ∧
    (applyUserPatch [("is_active", false)]
      { id := 5, email := "e", username := "n", first_name := "F",
        last_name := "L", is_active := true, is_staff := false,
        is_superuser := false, is_pharmacy_staff := false,
        created_at := 100 }).first_name = "F" ∧
    (applyUserPatch [("is_active", false)]
      { id := 5, email := "e", username := "n", first_name := "F",
        last_name := "L", is_active := true, is_staff := false,
        is_superuser := false, is_pharmacy_staff := false,
        created_at := 100 }).last_name = "L" ∧
    (applyUserPatch [("is_active", false)]
      { id := 5, email := "e", username := "n", first_name := "F",
        last_name := "L", is_active := true, is_staff := false,
        is_superuser := false, is_pharmacy_staff := false,
        created_at := 100 }).created_at = 100 ∧
    (applyUserPatch [("is_active", false)]
      { id := 5, email := "e", username := "n", first_name := "F",
        last_name := "L", is_active := true, is_staff := false,
        is_superuser := false, is_pharmacy_staff := false,
        created_at := 100 }).is_active
      = ((([("is_active", false)] : List (String × Bool)).lookup
          "is_active").getD true) ∧
    (applyUserPatch [("is_active", false)]
      { id := 5, email := "e", username := "n", first_name := "F",
        last_name := "L", is_active := true, is_staff := false,
        is_superuser := false, is_pharmacy_staff := false,
        created_at := 100 }).is_staff
      = ((([("is_active", false)] : List (String × Bool)).lookup
          "is_staff").getD false) ∧
    (applyUserPatch [("is_active", false)]
      { id := 5, email := "e", username := "n", first_name := "F",
        last_name := "L", is_active := true, is_staff := false,
        is_superuser := false, is_pharmacy_staff := false,
        created_at := 100 }).is_superuser
      = ((([("is_active", false)] : List (String × Bool)).lookup
          "is_superuser").getD false) ∧
    (applyUserPatch [("is_active", false)]
      { id := 5, email := "e", username := "n", first_name := "F",
        last_name := "L", is_active := true, is_staff := false,
        is_superuser := false, is_pharmacy_staff := false,
        created_at := 100 }).is_pharmacy_staff
      = ((([("is_active", false)] : List (String × Bool)).lookup
          "is_pharmacy_staff").getD false) ∧
    (∀ k v, k ∉ allowed_fields →
      adminPatchUser
        [{ id := 5, email := "e", username := "n", first_name := "F",
           last_name := "L", is_active := true, is_staff := false,
           is_superuser := false, is_pharmacy_staff := false,
           created_at := 100 }] 5 ((k, v) :: [("is_active", false)])
      = adminPatchUser
        [{ id := 5, email := "e", username := "n", first_name := "F",
           last_name := "L", is_active := true, is_staff := false,
           is_superuser := false, is_pharmacy_staff := false,
           created_at := 100 }] 5 [("is_active", false)]) :=
  patch_user_allowlist _ 5 [("is_active", false)]
    { id := 5, email := "e", username := "n", first_name := "F",
      last_name := "L", is_active := true, is_staff := false,
      is_superuser := false, is_pharmacy_staff := false, created_at := 100 }
    (by decide)

/-- C5: on an existing doctor id, `verify_doctor` with a body lacking
`is_verified` returns 400 leaving the table unchanged (not a no-op 200),
and with `is_verified` supplied returns 200 and overwrites the doctor's
`is_verified` with the supplied value. -/
theorem verify_doctor_requires_flag (db : List DoctorRow) (did : Nat)
    (d : DoctorRow) (h : db.find? (fun x => x.id == did) = some d) :
    (∀ data : List (String × Bool), data.lookup "is_verified" = none →
      adminVerifyDoctor db did data = (400, db)) ∧
    (∀ b : Bool,
      (adminVerifyDoctor db did [("is_verified", b)]).1 = 200 ∧
      ∀ x ∈ (adminVerifyDoctor db did [("is_verified", b)]).2,
        x.id = did → x.is_verified = b) := by
  have hd : d.id = did := by simpa using List.find?_some h
  constructor
  · intro data hnone
    simp [adminVerifyDoctor, h, hnone]
  · intro b
    have hres : adminVerifyDoctor db did [("is_verified", b)]
        = (200, db.map fun x =>
            if x.id == d.id then { d with is_verified := b } else x) := by
      simp only [adminVerifyDoctor, h]
      rfl
    constructor
    · rw [hres]
    · intro x hx hxid
      rw [hres] at hx
      rcases List.mem_map.mp hx with ⟨y, hymem, hy⟩
      by_cases hyid : (y.id == d.id) = true
      · rw [if_pos hyid] at hy
        rw [← hy]
      · rw [if_neg hyid] at hy
        have hcon : (y.id == d.id) = true := by
          rw [beq_iff_eq, hy, hxid, hd]
        exact absurd hcon hyid

/-- Witness for C5: one doctor, id 9, initially unverified. -/
theorem verify_doctor_requires_flag_witness :
    (∀ data : List (String × Bool), data.lookup "is_verified" = none →
      adminVerifyDoctor [{ id := 9, user := 3, is_verified := false }] 9 data
        = (400, [{ id := 9, user := 3, is_verified := false }])) ∧
    (∀ b : Bool,
      (adminVerifyDoctor [{ id := 9, user := 3, is_verified := false }] 9
        [("is_verified", b)]).1 = 200 ∧
      ∀ x ∈ (adminVerifyDoctor [{ id := 9, user := 3, is_verified := false }] 9
        [("is_verified", b)]).2, x.id = 9 → x.is_verified = b) :=
  verify_doctor_requires_flag [{ id := 9, user := 3, is_verified := false }] 9
    { id := 9, user := 3, is_verified := false } (by decide)

/-- C6: on an existing pharmacy id with unique row ids, `patch_pharmacy`
with a body lacking `is_active` returns 200 and leaves the table unchanged
(a no-op, not an error), and for every body the call returns 200 and
preserves every field other than `is_active` of every row. -/
theorem patch_pharmacy_missing_flag_noop (db : List PharmacyRow) (pid : Nat)
    (p : PharmacyRow) (hids : (db.map (fun x => x.id)).Nodup)
    (h : db.find? (fun x => x.id == pid) = some p) :
    (∀ data : List (String × Bool), data.lookup "is_active" = none →
      adminPatchPharmacy db pid data = (200, db)) ∧
    (∀ data : List (String × Bool),
      (adminPatchPharmacy db pid data).1 = 200 ∧
      ((adminPatchPharmacy db pid data).2).map (fun x => (x.id, x.name))
        = db.map (fun x => (x.id, x.name))) := by
  have hp : p.id = pid := by simpa using List.find?_some h
  have hmem : p ∈ db := List.mem_of_find?_eq_some h
  constructor
  · intro data hnone
    simp [adminPatchPharmacy, h, hnone]
  · intro data
    rcases hcase : data.lookup "is_active" with _ | v
    · simp [adminPatchPharmacy, h, hcase]
    · constructor
      · simp [adminPatchPharmacy, h, hcase]
      · simp only [adminPatchPharmacy, h, hcase, List.map_map]
        apply List.map_congr_left
        intro x hx
        by_cases hxid : (x.id == p.id) = true
        · have hxp : x = p :=
            List.inj_on_of_nodup_map hids hx hmem (by simpa using hxid)
          simp [Function.comp, hxid, hxp]
        · simp [Function.comp, hxid]

/-- Witness for C6: two pharmacies with distinct ids, patching id 4. -/
theorem patch_pharmacy_missing_flag_noop_witness :
    (∀ data : List (String × Bool), data.lookup "is_active" = none →
      adminPatchPharmacy
        [{ id := 4, name := "P1", is_active := true },
         { id := 6, name := "P2", is_active := false }] 4 data
      = (200, [{ id := 4, name := "P1", is_active := true },
               { id := 6, name := "P2", is_active := false }])) ∧
    (∀ data : List (String × Bool),
      (adminPatchPharmacy
        [{ id := 4, name := "P1", is_active := true },
         { id := 6, name := "P2", is_active := false }] 4 data).1 = 200 ∧
      ((adminPatchPharmacy
        [{ id := 4, name := "P1", is_active := true },
         { id := 6, name := "P2", is_active := false }] 4 data).2).map
          (fun x => (x.id, x.name))
        = ([{ id := 4, name := "P1", is_active := true },
            { id := 6, name := "P2", is_active := false }] :
            List PharmacyRow).map (fun x => (x.id, x.name))) :=
  patch_pharmacy_missing_flag_noop
    [{ id := 4, name := "P1", is_active := true },
     { id := 6, name := "P2", is_active := false }] 4
    { id := 4, name := "P1", is_active := true } (by decide) (by decide)

/-- After rewriting every row carrying `p`'s id to `q` (with `q.id = p.id`),
    the lookup by that id finds `q`. -/
lemma pharmacy_find_after_update (db : List PharmacyRow) (pid : Nat)
    (p q : PharmacyRow) (hq : q.id = pid)
    (h : db.find? (fun x => x.id == pid) = some p) :
    (db.map (fun x => if x.id == p.id then q else x)).find?
      (fun x => x.id == pid) = some q := by
  have hp : p.id = pid := by simpa using List.find?_some h
  induction db with
  | nil => simp at h
  | cons a l ih =>
    rw [List.find?_cons] at h
    by_cases ha : (a.id == pid) = true
    · simp only [ha] at h
      have hap : a = p := by simpa using h
      have hb : (a.id == p.id) = true := by simp [hap]
      simp only [List.map_cons, hb, if_true]
      rw [List.find?_cons]
      simp [hq]
    · have haf : (a.id == pid) = false := by simpa using ha
      simp only [haf] at h
      have hb : (a.id == p.id) = false := by
        rw [beq_eq_false_iff_ne, hp]
        simpa using ha
      simp only [List.map_cons, hb]
      rw [if_neg (by simp [hb])]
      rw [List.find?_cons]
      simp only [haf]
      exact ih h

/-- Rewriting rows to `q` by `q`'s own id is idempotent on the table. -/
lemma pharmacy_map_update_idem (db : List PharmacyRow) (q : PharmacyRow) :
    (db.map (fun x => if x.id == q.id then q else x)).map
      (fun x => if x.id == q.id then q else x)
      = db.map (fun x => if x.id == q.id then q else x) := by
  rw [List.map_map]
  apply List.map_congr_left
  intro x _
  by_cases hx : (x.id == q.id) = true
  · simp [Function.comp, hx]
  · simp [Function.comp, hx]

/-- C7: on an existing pharmacy id, `patch_pharmacy` with body
`{"is_active": true}` succeeds with 200, and applying it a second time
succeeds with 200 and leaves the table exactly as after the first call. -/
theorem patch_pharmacy_idempotent (db : List PharmacyRow) (pid : Nat)
    (p : PharmacyRow) (h : db.find? (fun x => x.id == pid) = some p) :
    (adminPatchPharmacy db pid [("is_active", true)]).1 = 200 ∧
    (adminPatchPharmacy (adminPatchPharmacy db pid [("is_active", true)]).2
      pid [("is_active", true)]).1 = 200 ∧
    (adminPatchPharmacy (adminPatchPharmacy db pid [("is_active", true)]).2
      pid [("is_active", true)]).2
      = (adminPatchPharmacy db pid [("is_active", true)]).2 := by
  have hp : p.id = pid := by simpa using List.find?_some h
  have hq : ({ p with is_active := true } : PharmacyRow).id = pid := hp
  have hdb1 : (adminPatchPharmacy db pid [("is_active", true)]).2
      = db.map (fun x => if x.id == p.id then { p with is_active := true } else x) := by
    simp only [adminPatchPharmacy, h]
    rfl
  have hfind2 := pharmacy_find_after_update db pid p
    { p with is_active := true } hq h
  refine ⟨?_, ?_, ?_⟩
  · simp only [adminPatchPharmacy, h]
    rfl
  · rw [hdb1]
    simp only [adminPatchPharmacy]
    rw [hfind2]
    rfl
  · rw [hdb1]
    simp only [adminPatchPharmacy]
    rw [hfind2]
    exact pharmacy_map_update_idem db { p with is_active := true }

/-- Witness for C7: one pharmacy, id 2, initially inactive. -/
theorem patch_pharmacy_idempotent_witness :
    (adminPatchPharmacy [{ id := 2, name := "P", is_active := false }] 2
      [("is_active", true)]).1 = 200 ∧
    (adminPatchPharmacy
      (adminPatchPharmacy [{ id := 2, name := "P", is_active := false }] 2
        [("is_active", true)]).2 2 [("is_active", true)]).1 = 200 ∧
    (adminPatchPharmacy
      (adminPatchPharmacy [{ id := 2, name := "P", is_active := false }] 2
        [("is_active", true)]).2 2 [("is_active", true)]).2
      = (adminPatchPharmacy [{ id := 2, name := "P", is_active := false }] 2
          [("is_active", true)]).2 :=
  patch_pharmacy_idempotent [{ id := 2, name := "P", is_active := false }] 2
    { id := 2, name := "P", is_active := false } (by decide)

lemma mem_insertByCreated (a u : UserRow) (l : List UserRow) :
    a ∈ insertByCreated u l ↔ a = u ∨ a ∈ l := by
  induction l with
  | nil => simp [insertByCreated]
  | cons v vs ih =>
    by_cases hc : v.created_at ≤ u.created_at
    · simp [insertByCreated, hc]
    · simp only [insertByCreated, if_neg hc, List.mem_cons, ih]
      tauto

lemma mem_orderByCreatedDesc (a : UserRow) (l : List UserRow) :
    a ∈ orderByCreatedDesc l ↔ a ∈ l := by
  induction l with
  | nil => simp [orderByCreatedDesc]
  | cons v vs ih =>
    simp only [orderByCreatedDesc, List.foldr_cons] at ih ⊢
    rw [mem_insertByCreated, ih, List.mem_cons]

/-- C8: `list_users(role="patient")` returns exactly the users with
`is_staff = false`, `is_pharmacy_staff = false` and no linked `Doctor`
row; in particular no staff, pharmacy-staff or doctor-linked user
appears. -/
theorem list_users_patient_role (db : AdminDB) (u : UserRow) :
    u ∈ listUsers db (some "patient") none none ↔
      u ∈ db.users ∧ u.is_staff = false ∧ u.is_pharmacy_staff = false ∧
        hasDoctorProfile db.doctors u.id = false := by
  simp only [listUsers, List.mem_filter, mem_orderByCreatedDesc,
    Bool.and_eq_true, Bool.not_eq_true']
  tauto

/-- C9: the role filters do not partition the users: a superuser who is
not staff, not pharmacy staff and has no linked `Doctor` row is listed
both under `role="admin"` and under `role="patient"`. -/
theorem role_filters_overlap (db : AdminDB) (u : UserRow)
    (hmem : u ∈ db.users) (hsu : u.is_superuser = true)
    (hst : u.is_staff = false) (hph : u.is_pharmacy_staff = false)
    (hdoc : hasDoctorProfile db.doctors u.id = false) :
    u ∈ listUsers db (some "admin") none none ∧
    u ∈ listUsers db (some "patient") none none := by
  constructor
  · simp only [listUsers, List.mem_filter, mem_orderByCreatedDesc,
      Bool.or_eq_true]
    exact ⟨hmem, Or.inr hsu⟩
  · rw [list_users_patient_role]
    exact ⟨hmem, hst, hph, hdoc⟩

/-- Witness for C9: a lone superuser with no doctor link. -/
theorem role_filters_overlap_witness :
    ({ id := 1, email := "root@x.io", username := "root", first_name := "R",
       last_name := "T", is_active := true, is_staff := false,
       is_superuser := true, is_pharmacy_staff := false,
       created_at := 10 } : UserRow)
      ∈ listUsers
          { users := [{ id := 1, email := "root@x.io", username := "root",
                        first_name := "R", last_name := "T",
                        is_active := true, is_staff := false,
                        is_superuser := true, is_pharmacy_staff := false,
                        created_at := 10 }],
            doctors := [], pharmacies := [], appointments := [], orders := [] }
          (some "admin") none none ∧
    ({ id := 1, email := "root@x.io", username := "root", first_name := "R",
       last_name := "T", is_active := true, is_staff := false,
       is_superuser := true, is_pharmacy_staff := false,
       created_at := 10 } : UserRow)
      ∈ listUsers
          { users := [{ id := 1, email := "root@x.io", username := "root",
                        first_name := "R", last_name := "T",
                        is_active := true, is_staff := false,
                        is_superuser := true, is_pharmacy_staff := false,
                        created_at := 10 }],
            doctors := [], pharmacies := [], appointments := [], orders := [] }
          (some "patient") none none :=
  role_filters_overlap _ _ (by decide) (by decide) (by decide) (by decide)
    (by decide)

lemma length_filter_pos_neg {α : Type} (l : List α) (p : α → Bool) :
    l.length = (l.filter p).length
      + (l.filter (fun a => p a == false)).length := by
  induction l with
  | nil => rfl
  | cons a t ih =>
    cases hpa : p a <;> simp [List.filter_cons, hpa, ih] <;> omega

/-- C10: every `get_stats` response satisfies
`users.inactive = users.total - users.active` and
`pharmacies.inactive = pharmacies.total - pharmacies.active` (both are
derived by subtraction), and since `is_verified` is a non-null boolean,
`doctors.total = doctors.verified + doctors.pending_verification`. -/
theorem stats_count_identities (today : Nat) (db : AdminDB) :
    (getStats today db).users.inactive
      = (getStats today db).users.total - (getStats today db).users.active ∧
    (getStats today db).pharmacies.inactive
      = (getStats today db).pharmacies.total
        - (getStats today db).pharmacies.active ∧
    (getStats today db).doctors.total
      = (getStats today db).doctors.verified
        + (getStats today db).doctors.pending_verification := by
  refine ⟨rfl, rfl, ?_⟩
  simp only [getStats]
  exact length_filter_pos_neg db.doctors (fun d => d.is_verified)

end VitaNips
